import Mathlib

/-!
Shallow embedding of `src/download.py` (Wistia video fetcher) and proofs
about it.  The program scrapes an embedded JSON asset manifest from an
HTML embed page, selects a rendition by (resolution, container), and
streams the file to disk; a thread pool drives one job per (name, id)
pair.

External effects (HTTP GET, JSON decoding, file writes, console prints)
are modelled by an environment `Env` of oracles plus an effect `Log`;
the control flow of every function is translated line by line from the
source.  A Python exception escaping a function is modelled by
`PyResult.exn` carrying the exception's type name; a caught exception is
a branch inside the function that returns normally.
-/

namespace WistiaFetcher

/-- Outcome of a Python call: a normal return value, or an uncaught
exception identified by its type name. -/
inductive PyResult (α : Type) where
  | ok : α → PyResult α
  | exn : String → PyResult α
deriving DecidableEq, Repr

/-- One entry of the asset manifest (one row of the pandas DataFrame
built in `Video.get_assets`): the columns used by the program. -/
structure Rendition where
  container : String
  display_name : String
  url : String
deriving DecidableEq, Repr

/-- The `Video` object's fields (`Video.__init__`, lines 24-30). -/
structure Video where
  vid_name : Option String
  srcpage : String
  assets : Option (List Rendition)
  vidurl : Option String
  resolution : String
  container : String
deriving DecidableEq, Repr

/-- Observable side effects of a run: console lines printed, number of
manifest-page GETs attempted, number of executions of the rendition
selection in `get_vidurl`, number of download GETs attempted, and the
paths of files written. -/
structure Log where
  printed : List String
  pageFetches : Nat
  selections : Nat
  downloadGets : Nat
  written : List String
deriving DecidableEq, Repr

/-- The empty log. -/
def Log.nil : Log := ⟨[], 0, 0, 0, []⟩

/-- Sequential composition of two logs. -/
def Log.app (a b : Log) : Log :=
  ⟨a.printed ++ b.printed, a.pageFetches + b.pageFetches,
   a.selections + b.selections, a.downloadGets + b.downloadGets,
   a.written ++ b.written⟩

/-- Oracles for the outside world.
`fetchPage u` models `requests.get(u).content` decoded as utf-8:
`none` when the request (or the decode) raises, `some page` otherwise.
`parseAssets s` models `json.loads(s)` followed by `pd.DataFrame`:
`none` when `json.loads` raises `ValueError`, `some rows` otherwise.
`getDownload u` models `requests.get(u, stream=True)`: `none` when the
request raises, `some code` for a response with that status code. -/
structure Env where
  fetchPage : String → Option String
  parseAssets : String → Option (List Rendition)
  getDownload : String → Option Nat

/-- `Video.baseaddr` (line 22). -/
def baseaddr : String := "http://fast.wistia.net/embed/iframe/"

/-- The recognized resolution labels (line 29). -/
def resolutions : List String := ["224p", "360p", "720p", "1080p", "4k"]

/-- The recognized container formats (line 30). -/
def containers : List String := ["mp4"]

/-- `Video.__init__(vid_name, vid_id, resolution, container)`
(lines 24-30).  A non-string `vid_name` (the `isinstance` check) is the
`none` case of the argument. -/
def Video.init (vid_name : Option String) (vid_id : String)
    (resolution : String) (container : String) : Video :=
  { srcpage := baseaddr ++ vid_id
    vid_name := vid_name
    assets := none
    vidurl := none
    resolution := if resolution ∈ resolutions then resolution else "1080p"
    container := if container ∈ containers then container else "mp4" }

/-! String helpers embedding the Python primitives used by the source. -/

/-- Python `s.replace(pat, rep)`: replace every non-overlapping
occurrence of `pat`, scanning left to right.  Structural recursion on a
fuel equal to the length of the subject, which suffices whenever `pat`
is nonempty (the only call site uses the pattern `".bin"`). -/
def pyReplaceAux (pat rep : List Char) : Nat → List Char → List Char
  | 0, s => s
  | _ + 1, [] => []
  | n + 1, c :: rest =>
    if pat.isPrefixOf (c :: rest) then
      rep ++ pyReplaceAux pat rep n ((c :: rest).drop pat.length)
    else
      c :: pyReplaceAux pat rep n rest

/-- Python `s.replace(pat, rep)` on strings. -/
def pyReplace (s pat rep : String) : String :=
  String.mk (pyReplaceAux pat.data rep.data s.data.length s.data)

/-- Python `u.rpartition(sep)[2]` for a one-character separator: the
part of `u` after the last occurrence of `c`, or all of `u` when `c`
does not occur. -/
def afterLastChars (c : Char) : List Char → List Char
  | [] => []
  | x :: rest => if x = c then afterLastChars c rest
                 else if c ∈ rest then afterLastChars c rest
                 else x :: rest

/-- Python `u.rpartition('/')[2]` on strings (line 86). -/
def afterLastSlash (u : String) : String :=
  String.mk (afterLastChars '/' u.data)

/-- Python `str(x)` for an optional string, as used by `print(url)` in
the result loop and by the f-string in `Video.download`: `None` prints
as the four characters None. -/
def pyStr : Option String → String
  | none => "None"
  | some s => s

/-! Embedding of the regex search in `Video.get_assets` (lines 42-45):
the pattern is a literal marker followed by a capture group holding an
opening square bracket, a greedy run of non-newline characters, and a
closing square bracket. -/

/-- The literal part of the pattern: the marker token preceding the
manifest array. -/
def markerChars : List Char := "W.iframeInit(\x7b\"assets\":".data

/-- Index of the last occurrence of `c` in the list, if any. -/
def lastIdx (c : Char) : List Char → Option Nat
  | [] => none
  | x :: rest =>
    match lastIdx c rest with
    | some k => some (k + 1)
    | none => if x = c then some 0 else none

/-- Match the capture group at the current position: an opening square
bracket, then (greedily, dot not matching newline) everything up to the
last closing square bracket on the same line. -/
def matchCapture : List Char → Option (List Char)
  | '[' :: rest =>
    let line := rest.takeWhile (fun c => c ≠ '\n')
    match lastIdx ']' line with
    | some k => some ('[' :: line.take (k + 1))
    | none => none
  | _ => none

/-- Scan the page left to right for a position where the marker matches
and the capture group matches right after it; on a position where only
the marker matches, the search continues at the next character, as the
regex engine does. -/
def searchChars : List Char → Option (List Char)
  | [] => none
  | c :: rest =>
    if markerChars.isPrefixOf (c :: rest) then
      match matchCapture ((c :: rest).drop markerChars.length) with
      | some cap => some cap
      | none => searchChars rest
    else
      searchChars rest

/-- `re.search(findstr, page)` restricted to its capture group
(`asset_search.group(1)`, line 47): `none` when the page has no match. -/
def assetSearch (page : String) : Option String :=
  (searchChars page.data).map String.mk

/-! The three methods of `Video`, and the module-level functions. -/

/-- Console message printed by the bare except of `get_assets`
(line 57). -/
def failMsg : String := "Failed to get asset information from page.\nCheck video ID."

/-- Console message printed when `json.loads` fails (line 51). -/
def jsonMsg : String := "Error loading JSON string"

/-- Console message printed when the download GET raises (line 94);
the f-string interpolates `self.vid_name`, which may be `None`. -/
def dlMsg (vid_name : Option String) : String :=
  "Error downloading " ++ pyStr vid_name

/-- `Video.get_assets` (lines 32-57).  The whole body sits inside a
bare `try/except`, so no exception escapes: every branch is `ok`.
Branches:
* the GET (or the utf-8 decode) raises: caught, failure message printed;
* the pattern does not match: `AssetNotFoundError` is raised (line 55)
  and immediately caught by the same try's bare except, which prints the
  failure message; nothing is stored;
* the pattern matches but `json.loads` raises `ValueError`: its message
  is printed (line 51), then `pd.DataFrame` receives the raw string and
  raises, which the bare except catches, printing the failure message;
  nothing is stored;
* the pattern matches and the JSON parses: the rows are stored in
  `self.assets` and returned. -/
def getAssets (env : Env) (v : Video) :
    Video × Log × PyResult (Option (List Rendition)) :=
  match env.fetchPage v.srcpage with
  | none => (v, ⟨[failMsg], 1, 0, 0, []⟩, .ok none)
  | some page =>
    match assetSearch page with
    | some captured =>
      match env.parseAssets captured with
      | some rows =>
        ({v with assets := some rows}, ⟨[], 1, 0, 0, []⟩, .ok (some rows))
      | none => (v, ⟨[jsonMsg, failMsg], 1, 0, 0, []⟩, .ok none)
    | none => (v, ⟨[failMsg], 1, 0, 0, []⟩, .ok none)

/-- The log contribution of one execution of the rendition-selection
block of `get_vidurl` (lines 68-72). -/
def selLog : Log := ⟨[], 0, 1, 0, []⟩

/-- `Video.get_vidurl` (lines 59-72).  When `self.assets` is `None`,
`get_assets` runs first; if `self.assets` is still `None` afterwards,
`df.loc` is an attribute access on `None` and raises `AttributeError`,
which nothing in this method catches.  Otherwise the rows are filtered
on container and display_name equality; on exactly one match its url,
with every occurrence of the placeholder suffix replaced by the
container extension, is stored in `self.vidurl`.  The method returns
`self.vidurl` as it stands. -/
def getVidurl (env : Env) (v : Video) :
    Video × Log × PyResult (Option String) :=
  let fetched : Video × Log :=
    match v.assets with
    | none => ((getAssets env v).1, (getAssets env v).2.1)
    | some _ => (v, Log.nil)
  let v1 := fetched.1
  let l1 := fetched.2
  match v1.assets with
  | none => (v1, l1, .exn "AttributeError")
  | some df =>
    let des := (df.filter fun a =>
      a.container == v1.container && a.display_name == v1.resolution).map
        fun a => a.url
    let v2 :=
      if des.length = 1 then
        {v1 with vidurl := some (pyReplace des.headI ".bin" ("." ++ v1.container))}
      else v1
    (v2, Log.app l1 selLog, .ok v2.vidurl)

/-- The destination path computed in `Video.download` (lines 85-88):
with no name, the final path segment of `self.vidurl`; with a name,
the name followed by a dot and the container.  `none` models the
`AttributeError` raised by `None.rpartition` when both `vid_name` and
`vidurl` are `None`. -/
def destPath (v : Video) : Option String :=
  match v.vid_name with
  | none => v.vidurl.map afterLastSlash
  | some n => some (n ++ "." ++ v.container)

/-- `Video.download` (lines 74-100).  When `self.vidurl` is `None`,
`get_vidurl` runs first (an exception from it propagates).  The path is
computed, then the streamed GET is attempted inside a `try` whose bare
except prints an error and returns `None`.  A GET on a `None` url (when
`get_vidurl` could not resolve one) raises inside that `try` and takes
the same branch.  On a 200 response the body is written to the path;
on any other status nothing is written.  Finally `self.vidurl` is
returned. -/
def download (env : Env) (v : Video) :
    Video × Log × PyResult (Option String) :=
  let step : Video × Log × PyResult (Option String) :=
    match v.vidurl with
    | none => getVidurl env v
    | some _ => (v, Log.nil, .ok v.vidurl)
  match step with
  | (v1, l1, .exn e) => (v1, l1, .exn e)
  | (v1, l1, .ok _) =>
    match destPath v1 with
    | none => (v1, l1, .exn "AttributeError")
    | some path =>
      match v1.vidurl with
      | none =>
        (v1, Log.app l1 ⟨[dlMsg v1.vid_name], 0, 0, 1, []⟩, .ok none)
      | some u =>
        match env.getDownload u with
        | none =>
          (v1, Log.app l1 ⟨[dlMsg v1.vid_name], 0, 0, 1, []⟩, .ok none)
        | some code =>
          if code = 200 then
            (v1, Log.app l1 ⟨[], 0, 0, 1, [path]⟩, .ok (some u))
          else
            (v1, Log.app l1 ⟨[], 0, 0, 1, []⟩, .ok (some u))

/-- `download_vid(item)` (lines 102-111): build a `Video` with
resolution 224p and call `download` on it.  The function body has no
return statement, so a normal completion returns Python's `None`
regardless of what `Video.download` returned; an exception raised by
`download` propagates to the caller (the worker thread). -/
def download_vid (env : Env) (item : Option String × String) :
    Log × PyResult (Option String) :=
  let v := Video.init item.1 item.2 "224p" "mp4"
  match download env v with
  | (_, l, .exn e) => (l, .exn e)
  | (_, l, .ok _) => (l, .ok none)

/-- The fan-out of the `__main__` block (line 117): one `download_vid`
job per (name, id) pair.  The list order stands for one possible
completion order of `imap_unordered`. -/
def runBatch (env : Env) (items : List (Option String × String)) :
    List (Log × PyResult (Option String)) :=
  items.map (download_vid env)

/-- The result-consuming loop of the `__main__` block (lines 118-119):
`for url in results: print(url)`.  Consuming a result whose job raised
re-raises that exception in the loop, which aborts it; the returned
flag records whether the loop aborted (in which case the remaining
results are never consumed and the total-time line is never printed). -/
def consumeResults : List (PyResult (Option String)) → List String × Bool
  | [] => ([], false)
  | .ok u :: rest =>
    let done := consumeResults rest
    (pyStr u :: done.1, done.2)
  | .exn _ :: _ => ([], true)

/-! Concrete fixtures used by the closed theorems and the witnesses. -/

/-- A manifest row matching the 224p/mp4 request made by
`download_vid`. -/
def goodRend : Rendition :=
  ⟨"mp4", "224p", "http://embed.wistia.com/deliveries/abc.bin"⟩

/-- The capture group of the marker pattern on `goodPage`. -/
def goodCapture : String := "[\x7b\"container\":\"mp4\"\x7d]"

/-- An embed page carrying the manifest marker followed by a JSON
array. -/
def goodPage : String :=
  "<html>W.iframeInit(\x7b\"assets\":" ++ goodCapture ++ ");</html>"

/-- A page with no manifest marker (what a 404 page looks like to the
scraper). -/
def badPage : String := "<html>page not found</html>"

/-- A world with one good id, one id whose page lacks the marker, and
downloads that always answer 200. -/
def envC1 : Env :=
  { fetchPage := fun u =>
      if u = baseaddr ++ "good" then some goodPage
      else if u = baseaddr ++ "bad" then some badPage
      else none
    parseAssets := fun s => if s = goodCapture then some [goodRend] else none
    getDownload := fun _ => some 200 }

/-- A world where every request raises. -/
def env0 : Env := ⟨fun _ => none, fun _ => none, fun _ => none⟩

/-- A world where every download GET completes with status 404. -/
def env404 : Env := ⟨fun _ => none, fun _ => none, fun _ => some 404⟩

/-- A job whose assets are already populated with the one matching row
and whose url is not yet resolved. -/
def vAssets : Video :=
  ⟨some "n", baseaddr ++ "x", some [goodRend], none, "224p", "mp4"⟩

/-- A job whose assets are populated but match nothing (empty
manifest). -/
def vEmpty : Video :=
  ⟨some "n", baseaddr ++ "x", some [], none, "224p", "mp4"⟩

/-- A fully populated job: assets and resolved url both set. -/
def vReady : Video :=
  ⟨some "B", baseaddr ++ "good", some [goodRend],
   some "http://embed.wistia.com/deliveries/abc.mp4", "224p", "mp4"⟩

/-- A manifest row whose url holds the placeholder suffix in an interior
path segment as well as at the end. -/
def binRend : Rendition :=
  ⟨"mp4", "224p", "http://cdn.example.com/a.bin/video.bin"⟩

/-- A job whose assets hold `binRend`. -/
def vInterior : Video :=
  ⟨none, baseaddr ++ "z", some [binRend], none, "224p", "mp4"⟩

/-- The fresh job built by `download_vid` for the id whose page lacks
the marker. -/
def vBad : Video := Video.init (some "A") "bad" "224p" "mp4"

/-! Claim theorems. -/

/-- Claim C8: on a fetched page that lacks the manifest marker,
`get_assets` raises `AssetNotFoundError` internally, catches it in the
same routine, prints only the console failure message, returns normally
(value `None`, no exception escaping), and stores no asset list (the
job is returned unchanged). -/
theorem getAssets_marker_absent (env : Env) (v : Video) (page : String)
    (hp : env.fetchPage v.srcpage = some page)
    (hm : assetSearch page = none) :
    (getAssets env v).1 = v ∧
    (getAssets env v).2.1.printed = [failMsg] ∧
    (getAssets env v).2.2 = .ok none := by
  simp [getAssets, hp, hm]

/-- Witness for C8: the fresh job for id bad in the concrete world
`envC1` hits the marker-absent branch. -/
theorem getAssets_marker_absent_witness :
    envC1.fetchPage vBad.srcpage = some badPage ∧
    assetSearch badPage = none ∧
    (getAssets envC1 vBad).1 = vBad ∧
    (getAssets envC1 vBad).2.1.printed = [failMsg] :=
  ⟨rfl, rfl, (getAssets_marker_absent envC1 vBad badPage rfl rfl).1,
   (getAssets_marker_absent envC1 vBad badPage rfl rfl).2.1⟩

/-- Claim C3: on a job whose asset list holds exactly one row matching
the requested container (mp4) and resolution label, `get_vidurl` stores
that row's url with `.bin` replaced by `.mp4` in `self.vidurl` and
returns it. -/
theorem getVidurl_unique_match (env : Env) (v : Video)
    (df : List Rendition) (rend : Rendition)
    (ha : v.assets = some df) (hc : v.container = "mp4")
    (hf : df.filter (fun a =>
        a.container == v.container && a.display_name == v.resolution)
      = [rend]) :
    (getVidurl env v).1.vidurl = some (pyReplace rend.url ".bin" ".mp4") ∧
    (getVidurl env v).2.2 = .ok (some (pyReplace rend.url ".bin" ".mp4")) := by
  rw [hc] at hf
  simp [getVidurl, ha, hc, hf]

/-- Witness for C3: a job holding exactly the one matching row
`goodRend` resolves to that row's url with the suffix rewritten. -/
theorem getVidurl_unique_match_witness :
    vAssets.assets = some [goodRend] ∧
    vAssets.container = "mp4" ∧
    (getVidurl env0 vAssets).1.vidurl
      = some "http://embed.wistia.com/deliveries/abc.mp4" := by
  refine ⟨rfl, rfl, ?_⟩
  have h := (getVidurl_unique_match env0 vAssets [goodRend] goodRend
    rfl rfl (by decide)).1
  rw [h]
  decide

/-- Claim C4: on a job whose asset list has zero or two-or-more rows
matching the requested pair and whose url is not yet resolved,
`get_vidurl` returns `None`, leaves `self.vidurl` unset, mutates
nothing, and raises no exception. -/
theorem getVidurl_no_unique_match (env : Env) (v : Video)
    (df : List Rendition)
    (ha : v.assets = some df) (hv : v.vidurl = none)
    (hn : (df.filter fun a =>
        a.container == v.container && a.display_name == v.resolution).length
      ≠ 1) :
    (getVidurl env v).1 = v ∧
    (getVidurl env v).1.vidurl = none ∧
    (getVidurl env v).2.2 = .ok none := by
  simp [getVidurl, ha, hn, hv]

/-- Witness for C4: a job with an empty asset list stays unresolved and
returns `None` without an exception. -/
theorem getVidurl_no_unique_match_witness :
    vEmpty.assets = some [] ∧
    vEmpty.vidurl = none ∧
    (getVidurl env0 vEmpty).2.2 = .ok none :=
  ⟨rfl, rfl,
   (getVidurl_no_unique_match env0 vEmpty [] rfl rfl (by decide)).2.2⟩

/-- Claim C9: the url rewrite in `get_vidurl` is a global
`str.replace`, so an occurrence of `.bin` in a non-final path segment
is rewritten along with the trailing one: on the matched row with url
http://cdn.example.com/a.bin/video.bin both occurrences become
`.mp4`. -/
theorem vidurl_replace_interior_bin :
    (getVidurl env0 vInterior).1.vidurl
      = some "http://cdn.example.com/a.mp4/video.mp4" := rfl

/-- Claim C5: `Video.__init__` keeps a recognized resolution or
container and silently replaces an unrecognized one by the default
(1080p, mp4); no input raises. -/
theorem init_silent_defaults (n : Option String) (i r c : String) :
    (r ∉ resolutions → (Video.init n i r c).resolution = "1080p") ∧
    (r ∈ resolutions → (Video.init n i r c).resolution = r) ∧
    (c ∉ containers → (Video.init n i r c).container = "mp4") ∧
    (c ∈ containers → (Video.init n i r c).container = c) := by
  refine ⟨fun h => ?_, fun h => ?_, fun h => ?_, fun h => ?_⟩ <;>
    simp [Video.init, h]

/-- Witness for C5: 480p/avi fall back to the defaults, 224p/mp4 are
kept. -/
theorem init_silent_defaults_witness :
    (Video.init none "abc" "480p" "avi").resolution = "1080p" ∧
    (Video.init none "abc" "480p" "avi").container = "mp4" ∧
    (Video.init none "abc" "224p" "mp4").resolution = "224p" ∧
    (Video.init none "abc" "224p" "mp4").container = "mp4" :=
  ⟨(init_silent_defaults none "abc" "480p" "avi").1 (by decide),
   (init_silent_defaults none "abc" "480p" "avi").2.2.1 (by decide),
   (init_silent_defaults none "abc" "224p" "mp4").2.1 (by decide),
   (init_silent_defaults none "abc" "224p" "mp4").2.2.2 (by decide)⟩

/-- On a job whose url is resolved, the destination path is defined
(no branch of the path computation raises). -/
theorem destPath_isSome (v : Video) (u : String) (hv : v.vidurl = some u) :
    ∃ p, destPath v = some p := by
  cases hn : v.vid_name <;> simp [destPath, hn, hv]

/-- Claim C6: on a resolved job, when the download GET completes the
destination file is written exactly when the status is 200 (any other
status writes nothing and raises nothing, still returning normally),
and when the GET itself raises the failure is printed, nothing is
written, and the call returns `None`. -/
theorem download_status_gate (env : Env) (v : Video) (u : String)
    (hv : v.vidurl = some u) :
    (∀ code, env.getDownload u = some code →
      ((download env v).2.1.written
          = if code = 200 then [(destPath v).getD ""] else []) ∧
      (download env v).2.2 = .ok (some u)) ∧
    (env.getDownload u = none →
      (download env v).2.1.written = [] ∧
      (download env v).2.2 = .ok none ∧
      (download env v).2.1.printed = [dlMsg v.vid_name]) := by
  obtain ⟨p, hdp⟩ := destPath_isSome v u hv
  constructor
  · intro code hd
    by_cases h2 : code = 200 <;>
      simp [download, hv, hdp, hd, h2, Log.app, Log.nil]
  · intro hd
    simp [download, hv, hdp, hd, Log.app, Log.nil]

/-- Witness for C6: the ready job writes B.mp4 under a 200 world and
writes nothing, returning `None`, when the GET raises. -/
theorem download_status_gate_witness :
    vReady.vidurl = some "http://embed.wistia.com/deliveries/abc.mp4" ∧
    (download envC1 vReady).2.1.written = ["B.mp4"] ∧
    (download env0 vReady).2.2 = .ok none ∧
    (download env0 vReady).2.1.written = [] := by
  refine ⟨rfl, ?_, ?_, ?_⟩
  · have h := ((download_status_gate envC1 vReady
      "http://embed.wistia.com/deliveries/abc.mp4" rfl).1 200 rfl).1
    rw [h]; decide
  · exact ((download_status_gate env0 vReady
      "http://embed.wistia.com/deliveries/abc.mp4" rfl).2 rfl).2.1
  · exact ((download_status_gate env0 vReady
      "http://embed.wistia.com/deliveries/abc.mp4" rfl).2 rfl).1

/-- On a job whose url is already resolved, `download` leaves the job
unchanged, performs no page fetch and no rendition selection, and
attempts exactly one download GET. -/
theorem download_skips_when_ready (env : Env) (v : Video) (u : String)
    (hv : v.vidurl = some u) :
    (download env v).1 = v ∧
    (download env v).2.1.pageFetches = 0 ∧
    (download env v).2.1.selections = 0 ∧
    (download env v).2.1.downloadGets = 1 := by
  obtain ⟨p, hdp⟩ := destPath_isSome v u hv
  rcases hd : env.getDownload u with _ | code
  · simp [download, hv, hdp, hd, Log.app, Log.nil]
  · by_cases h2 : code = 200 <;>
      simp [download, hv, hdp, hd, h2, Log.app, Log.nil]

/-- Claim C7: calling `download` twice on a job whose assets and
resolved url are already populated performs no manifest fetch and no
rendition selection in either call (both steps are skipped), while the
file download itself is attempted once per call. -/
theorem download_twice_skips (env : Env) (v : Video)
    (df : List Rendition) (u : String)
    (_ha : v.assets = some df) (hu : v.vidurl = some u) :
    (download env v).2.1.pageFetches = 0 ∧
    (download env v).2.1.selections = 0 ∧
    (download env v).2.1.downloadGets = 1 ∧
    (download env ((download env v).1)).2.1.pageFetches = 0 ∧
    (download env ((download env v).1)).2.1.selections = 0 ∧
    (download env ((download env v).1)).2.1.downloadGets = 1 := by
  obtain ⟨h1, h2, h3, h4⟩ := download_skips_when_ready env v u hu
  refine ⟨h2, h3, h4, ?_, ?_, ?_⟩ <;> rw [h1]
  · exact h2
  · exact h3
  · exact h4

/-- Witness for C7: the ready job under `envC1` fetches no page and
runs no selection in two successive calls. -/
theorem download_twice_skips_witness :
    vReady.assets = some [goodRend] ∧
    vReady.vidurl = some "http://embed.wistia.com/deliveries/abc.mp4" ∧
    (download envC1 vReady).2.1.pageFetches = 0 ∧
    (download envC1 vReady).2.1.selections = 0 ∧
    (download envC1 ((download envC1 vReady).1)).2.1.pageFetches = 0 ∧
    (download envC1 ((download envC1 vReady).1)).2.1.selections = 0 :=
  ⟨rfl, rfl,
   (download_twice_skips envC1 vReady [goodRend]
     "http://embed.wistia.com/deliveries/abc.mp4" rfl rfl).1,
   (download_twice_skips envC1 vReady [goodRend]
     "http://embed.wistia.com/deliveries/abc.mp4" rfl rfl).2.1,
   (download_twice_skips envC1 vReady [goodRend]
     "http://embed.wistia.com/deliveries/abc.mp4" rfl rfl).2.2.2.1,
   (download_twice_skips envC1 vReady [goodRend]
     "http://embed.wistia.com/deliveries/abc.mp4" rfl rfl).2.2.2.2.1⟩

/-- Claim C10: on a resolved job whose download GET completes with a
non-200 status, `download` still returns the resolved url although no
file was written, so the return value does not distinguish a successful
download from a silent non-200 no-op. -/
theorem download_non200_returns_url (env : Env) (v : Video)
    (u : String) (code : Nat)
    (hv : v.vidurl = some u) (hd : env.getDownload u = some code)
    (hne : code ≠ 200) :
    (download env v).2.2 = .ok (some u) ∧
    (download env v).2.1.written = [] := by
  obtain ⟨p, hdp⟩ := destPath_isSome v u hv
  simp [download, hv, hdp, hd, hne, Log.app, Log.nil]

/-- Witness for C10: a 404 download still returns the resolved url and
writes nothing. -/
theorem download_non200_returns_url_witness :
    env404.getDownload "http://embed.wistia.com/deliveries/abc.mp4"
      = some 404 ∧
    (download env404 vReady).2.2
      = .ok (some "http://embed.wistia.com/deliveries/abc.mp4") ∧
    (download env404 vReady).2.1.written = [] :=
  ⟨rfl,
   (download_non200_returns_url env404 vReady
     "http://embed.wistia.com/deliveries/abc.mp4" 404 rfl rfl
     (by decide)).1,
   (download_non200_returns_url env404 vReady
     "http://embed.wistia.com/deliveries/abc.mp4" 404 rfl rfl
     (by decide)).2⟩

/-- Claim C1 (refuted at a concrete input): in the world `envC1` the
batch [(A, bad), (B, good)] is not failure-isolated.  The job for id
bad, whose page lacks the manifest marker, raises `AttributeError`
(after `get_assets` swallows its own failure it leaves `assets` unset,
and `get_vidurl` dereferences `None`), and consuming that result in the
main loop re-raises, aborting the loop: no result of the batch is
printed, the sibling job's result is never consumed, and the total-time
line is unreachable. -/
theorem batch_aborted_by_missing_manifest :
    (runBatch envC1 [(some "A", "bad"), (some "B", "good")]).map Prod.snd
      = [.exn "AttributeError", .ok none] ∧
    consumeResults
      ((runBatch envC1 [(some "A", "bad"), (some "B", "good")]).map Prod.snd)
      = ([], true) := ⟨rfl, rfl⟩

/-- Claim C2 (refuted at a concrete input): even when a job resolves
its url (here `Video.download` returns the rewritten delivery url and
writes B.mp4), `download_vid` has no return statement, so the value fed
to the result loop is Python's `None` and the loop prints the string
None instead of the resolved url. -/
theorem download_vid_discards_resolved_url :
    (download envC1 (Video.init (some "B") "good" "224p" "mp4")).2.2
      = .ok (some "http://embed.wistia.com/deliveries/abc.mp4") ∧
    (download_vid envC1 (some "B", "good")).2 = .ok none ∧
    consumeResults [(download_vid envC1 (some "B", "good")).2]
      = (["None"], false) := ⟨rfl, rfl, rfl⟩

end WistiaFetcher
